import Mathlib

/-!
Verification of the rockcraft framework-extension logic
(`rockcraft/extensions/flask_framework.py`, `rockcraft/extensions/django_framework.py`).

Manifests are YAML-like trees of mappings, sequences and scalars; we embed them
as the inductive `Value` below, with mappings as association lists in insertion
order (Python dicts preserve insertion order).  Filesystem state is embedded as
a finite tree of named entries.  Each Python function used by the claims is
translated into a Lean definition of the same name (camel-cased); failures that
the code raises as `ExtensionError` become `Except.error` carrying the message
string built by the source.
-/

namespace Rockcraft

/-- A YAML-like value: scalar (string), sequence, or mapping.  Mappings are
association lists in insertion order, mirroring Python dicts. -/
inductive Value where
  | vstr : String → Value
  | vseq : List Value → Value
  | vmap : List (String × Value) → Value

/-- Association-list lookup by key, returning the first binding, mirroring
Python dict lookup (well-formed dicts have unique keys). -/
def alookup {α : Type} : List (String × α) → String → Option α
  | [], _ => none
  | (k, v) :: rest, key => if k = key then some v else alookup rest key

theorem alookup_sizeOf {α : Type} [SizeOf α] :
    ∀ (l : List (String × α)) (key : String) (v : α),
      alookup l key = some v → sizeOf v < sizeOf l := by
  intro l key v h
  induction l with
  | nil => simp [alookup] at h
  | cons hd tl ih =>
    obtain ⟨k, w⟩ := hd
    simp only [alookup] at h
    by_cases hk : k = key
    · simp [hk] at h
      subst h
      simp
      omega
    · simp [hk] at h
      have := ih h
      simp
      omega

mutual

/-- Modelled from the spec: the Property Merger `_apply_extension_property`
(in `rockcraft/extensions/_utils.py`, which is not under `src/`; only its
callers are).  Per spec section 4.1 plus the call sites in
`django_framework.py` and the unit tests: the first argument is the
existing/user-declared (override) value and the second the
extension-contributed (base/default) value.  If both are mappings the result
is the mapping over the union of keys, recursing on shared keys; if both are
sequences the result is the base (extension) sequence followed by the
override (user) sequence, with no deduplication; otherwise the override
(existing) value wins. -/
def applyExtensionProperty : Value → Value → Value
  | Value.vmap existing, Value.vmap ext =>
      Value.vmap (mergeEntries existing ext ++
        ext.filter (fun kv => (alookup existing kv.1).isNone))
  | Value.vseq existing, Value.vseq ext => Value.vseq (ext ++ existing)
  | existing, _ => existing
termination_by a b => sizeOf a + sizeOf b
decreasing_by
  simp
  omega

/-- Helper for the mapping case of `applyExtensionProperty`: walk the
existing mapping's entries, recursing into the merge wherever the
extension mapping binds the same key. -/
def mergeEntries : List (String × Value) → List (String × Value) → List (String × Value)
  | [], _ => []
  | (k, v) :: rest, ext =>
      (k, match h : alookup ext k with
          | some v2 => applyExtensionProperty v v2
          | none => v) :: mergeEntries rest ext
termination_by l ext => sizeOf l + sizeOf ext
decreasing_by
  · have hs := alookup_sizeOf ext k v2 h
    simp
    omega
  · simp

end

/-- Embedding of `DjangoFramework._merge_part`: merge two part definitions
over the union of their keys; a key present in one side only passes through,
a key present in both recurses into the Property Merger.  The source iterates
over a Python `set` union (unspecified order); we fix the order as the base
part's keys followed by the new part's fresh keys, which agrees with the
source on lookups. -/
def mergePart (basePart newPart : List (String × Value)) : List (String × Value) :=
  mergeEntries basePart newPart ++
    newPart.filter (fun kv => (alookup basePart kv.1).isNone)

theorem applyExtensionProperty_vmap (e x : List (String × Value)) :
    applyExtensionProperty (Value.vmap e) (Value.vmap x) = Value.vmap (mergePart e x) := by
  rw [applyExtensionProperty, mergePart]

theorem applyExtensionProperty_vseq (e x : List Value) :
    applyExtensionProperty (Value.vseq e) (Value.vseq x) = Value.vseq (x ++ e) := by
  rw [applyExtensionProperty]

/-- One name in a Python import statement (`ast.alias`): the imported dotted
name and the optional `as` alias. -/
structure ImportAlias where
  name : String
  asname : Option String

/-- An assignment target as inspected by the source: either a bare variable
name (`ast.Name`) or anything else (tuples, attributes, subscripts). -/
inductive PyTarget where
  | name : String → PyTarget
  | other : PyTarget

/-- A top-level Python statement as distinguished by the source's AST walk:
assignments (`ast.Assign` with its targets), from-imports (`ast.ImportFrom`
with its module and names), plain imports (`ast.Import`), and everything
else. -/
inductive PyStmt where
  | assign : List PyTarget → PyStmt
  | importFrom : Option String → List ImportAlias → PyStmt
  | importPlain : List ImportAlias → PyStmt
  | other : PyStmt

/-- A parsed Python module: its list of top-level statements
(`ast.iter_child_nodes` of the parsed tree). -/
abbrev PyModule := List PyStmt

/-- Embedding of the loop body shared by `FlaskFramework._check_wsgi_path`
and `DjangoFramework._get_wsgi_path`: a statement finds the expected
variable when it is an `ast.Assign` with an `ast.Name` target of that name,
or an `ast.ImportFrom` one of whose names binds it (asname when given,
otherwise the imported name itself).  Plain `ast.Import` statements are not
inspected by the source. -/
def stmtBindsVar (varName : String) : PyStmt → Bool
  | PyStmt.assign targets =>
      targets.any fun t =>
        match t with
        | PyTarget.name i => i == varName
        | PyTarget.other => false
  | PyStmt.importFrom _ names =>
      names.any fun al =>
        match al.asname with
        | some a => a == varName
        | none => al.name == varName
  | _ => false

/-- The success predicate of claim C3 as the claim words it: a direct
assignment to the variable, or any import — from-import or plain import —
that binds the name, directly or via alias.  A plain `import a.b` binds its
first dotted component `a`; `import m as x` binds `x`. -/
def claimStmtBindsVar (varName : String) : PyStmt → Bool
  | PyStmt.assign targets =>
      targets.any fun t =>
        match t with
        | PyTarget.name i => i == varName
        | PyTarget.other => false
  | PyStmt.importFrom _ names =>
      names.any fun al =>
        match al.asname with
        | some a => a == varName
        | none => al.name == varName
  | PyStmt.importPlain names =>
      names.any fun al =>
        match al.asname with
        | some a => a == varName
        | none => (⟨al.name.data.takeWhile (fun c => c != '.')⟩ : String) == varName
  | PyStmt.other => false

/-- A filesystem node: a regular file (with its parsed Python content, empty
for non-Python files — only `app.py` and `wsgi.py` contents are ever read)
or a directory of named entries. -/
inductive FsTree where
  | file : PyModule → FsTree
  | dir : List (String × FsTree) → FsTree

/-- The project root's directory listing: named entries in the (sorted)
order `sorted(project_root.iterdir())` yields them. -/
abbrev Listing := List (String × FsTree)

/-- The build manifest fields the extensions consult.  `base` is required
(the source reads `yaml_data["base"]`); the `Option` fields model key
presence; `services` and `parts` are the manifest's two sub-mappings. -/
structure Manifest where
  base : String
  buildBase : Option Value
  platforms : Option Value
  runUser : Option Value
  services : List (String × Value)
  parts : List (String × Value)

/-- Embedding of `yaml_data.get("services", {}).get(name, {}).get("command")`
followed by a truthiness test: returns the declared command when it is a
non-empty string (manifest schema types `command` as a string). -/
def serviceCommand (m : Manifest) (svcName : String) : Option String :=
  match alookup m.services svcName with
  | some (Value.vmap svc) =>
      match alookup svc "command" with
      | some (Value.vstr c) => if c == "" then none else some c
      | _ => none
  | _ => none

/-- Embedding of
`yaml_data.get("parts", {}).get(partName, {}).get("prime", [])`: the
user-declared prime list of a part (manifest schema types prime entries as
strings). -/
def partPrime (parts : List (String × Value)) (partName : String) : List String :=
  match alookup parts partName with
  | some (Value.vmap fields) =>
      match alookup fields "prime" with
      | some (Value.vseq items) =>
          items.filterMap fun v =>
            match v with
            | Value.vstr s => some s
            | _ => none
      | _ => []
  | _ => []

/-- Whether the second character list is a prefix of the first.  (Python
string operations act on code points; these list-level helpers mirror that
and, unlike the byte-position `String` primitives, evaluate by `rfl`.) -/
def charsStartWith : List Char → List Char → Bool
  | _, [] => true
  | [], _ :: _ => false
  | c :: cs, p :: ps => p == c && charsStartWith cs ps

/-- Python `s.startswith(pat)`. -/
def strStartsWith (s pat : String) : Bool :=
  charsStartWith s.data pat.data

/-- Python `s.endswith(pat)`. -/
def strEndsWith (s pat : String) : Bool :=
  charsStartWith s.data.reverse pat.data.reverse

/-- Python `s[n:]` (drop the first `n` code points). -/
def strDrop (s : String) (n : Nat) : String :=
  ⟨s.data.drop n⟩

/-- Python `s[:-n]` (drop the last `n` code points). -/
def strDropRight (s : String) (n : Nat) : String :=
  ⟨s.data.take (s.data.length - n)⟩

/-- Drop the leading characters satisfying `p`. -/
def strDropWhile (s : String) (p : Char → Bool) : String :=
  ⟨s.data.dropWhile p⟩

/-- Embedding of `re.match("-? *<framework>/app", p)`: an optional leading
`-` marker, any number of spaces, then the literal `<framework>/app` — all
anchored at the start of the entry. -/
def matchPrimePattern (framework : String) (p : String) : Bool :=
  let rest := if strStartsWith p "-" then strDrop p 1 else p
  strStartsWith (strDropWhile rest (fun c => c == ' ')) (framework ++ "/app")

/-- Embedding of the exclusion test
`any(fnmatch.fnmatch(f, p) for p in ("node_modules", ".git", ".yarn", "*.rock"))`:
three exact names plus the `*.rock` suffix glob. -/
def matchesExclusion (f : String) : Bool :=
  f == "node_modules" || f == ".git" || f == ".yarn" || strEndsWith f ".rock"

/-- The renaming map computed from the project root directory listing:
every entry not matching an exclusion glob maps to
`<framework>/app/<name>` (via `posixpath.join`). -/
def listingRenameMap (framework : String) (root : Listing) : List (String × String) :=
  (root.map Prod.fst).filterMap fun f =>
    if matchesExclusion f then none else some (f, framework ++ "/app/" ++ f)

/-- Split a character list at `/` separators. -/
def splitSlashAux : List Char → List Char → List String
  | [], acc => [⟨acc.reverse⟩]
  | c :: cs, acc =>
      if c == '/' then (⟨acc.reverse⟩ : String) :: splitSlashAux cs []
      else splitSlashAux cs (c :: acc)

/-- Split a relative POSIX path into segments, dropping empty segments as
`os.path`/`pathlib` normalization does. -/
def pathSegs (s : String) : List String :=
  (splitSlashAux s.data []).filter (fun seg => seg != "")

/-- Helper for `relpath`: walk off the shared leading segments, then prefix
one `..` per remaining base segment. -/
def relpathAux : List String → List String → List String
  | p, [] => p
  | [], b0 :: bs => (b0 :: bs).map (fun _ => "..")
  | p0 :: ps, b0 :: bs =>
      if p0 == b0 then relpathAux ps bs
      else (b0 :: bs).map (fun _ => "..") ++ p0 :: ps

/-- Embedding of `os.path.relpath(path, base)` for relative POSIX paths
without `.`/`..` components, as used on prime entries against
`<framework>/app`. -/
def relpath (path base : String) : String :=
  let r := relpathAux (pathSegs path) (pathSegs base)
  if r.isEmpty then "." else String.intercalate "/" r

/-- Embedding of the condition
`self.app_prime and self.app_prime[0] and self.app_prime[0][0] != "-"`:
the prime list drives the renaming map directly only when it is non-empty,
its first entry is a non-empty string, and that entry does not start with
the `-` exclusion marker. -/
def primeDirectMode : List String → Bool
  | [] => false
  | p0 :: _ => !(p0 == "") && !(strStartsWith p0 "-")

/-- Build a `Value` mapping of strings. -/
def strMapValue (l : List (String × String)) : Value :=
  Value.vmap (l.map fun kv => (kv.1, Value.vstr kv.2))

/-- Build a `Value` sequence of strings. -/
def strSeqValue (l : List String) : Value :=
  Value.vseq (l.map Value.vstr)

/-- A generic `Except` success test (used in theorem statements). -/
def exceptOk {ε α : Type} : Except ε α → Bool
  | Except.ok _ => true
  | Except.error _ => false

/-- The proposition that `pat` occurs inside `s` (errors "mentioning"
a file name). -/
def containsSub (s pat : String) : Prop :=
  ∃ pre post, s = pre ++ pat ++ post

/-- The well-known Flask project entries that seed the default prime list. -/
def flaskWellKnownEntries : List String :=
  ["app", "app.py", "migrate", "migrate.sh", "migrate.py", "static", "templates"]

def flaskPrimePrefixMsg : String :=
  "flask-framework extension required prime entry in the flask-framework/install-app part to start with flask/app"

/-- Embedding of `FlaskFramework.app_prime`: validate every user-declared
prime entry of `flask-framework/install-app` against the
`-? *flask/app` pattern; when the user declared none, default to the
well-known entries that exist in the project root (files or directories). -/
def flaskAppPrime (m : Manifest) (root : Listing) : Except String (List String) :=
  let userPrime := partPrime m.parts "flask-framework/install-app"
  if userPrime.all (matchPrimePattern "flask") then
    if userPrime.isEmpty then
      Except.ok ((flaskWellKnownEntries.filter
        (fun f => (alookup root f).isSome)).map (fun f => "flask/app/" ++ f))
    else Except.ok userPrime
  else Except.error flaskPrimePrefixMsg

/-- The `override-build` script of `<framework>-framework/gunicorn-config`
(the dedented f-string of `_GunicornBase._gen_parts`, keeping its trailing
newline). -/
def gunicornConfigScript (framework : String) : String :=
  "#!/bin/bash\ncraftctl default\nmkdir -p $CRAFT_PART_INSTALL/" ++ framework ++
  "/\nGUNICORN_CONFIG=$CRAFT_PART_INSTALL/" ++ framework ++
  "/gunicorn.conf.py\necho \x27bind = [\"0.0.0.0:8000\"]\x27 > $GUNICORN_CONFIG\necho \x27chdir = \"/" ++
  framework ++ "/app\"\x27 >> $GUNICORN_CONFIG\n"

/-- The `override-build` of the bare-base `misc` step: create `/tmp` in the
part install directory with mode 777. -/
def miscTmpScript : String :=
  "mkdir -m 777 ${CRAFT_PART_INSTALL}/tmp"

/-- The `<framework>-framework/dependencies` step of
`_GunicornBase._gen_parts` (also `DjangoFramework._gen_new_parts`). -/
def dependenciesPartDef : List (String × Value) :=
  [("plugin", Value.vstr "python"),
   ("stage-packages", strSeqValue ["python3-venv"]),
   ("source", Value.vstr "."),
   ("python-packages", strSeqValue ["gunicorn"]),
   ("python-requirements", strSeqValue ["requirements.txt"])]

/-- Embedding of `_GunicornBase._gen_parts` specialized to the Flask
subclass (the only concrete `_GunicornBase` in the sources): derive the
renaming map from the prime list (or, in exclude/empty mode, from the
directory listing), then emit the dependencies, install-app,
gunicorn-config and misc steps, the last depending on whether the base is
`bare`.  (The source's dict comprehension keeps the last binding for a
duplicated relpath key; the association list keeps all bindings — the two
agree everywhere the renaming keys are distinct, as they are for directory
listings and for the prime lists arising in the claims.) -/
def flaskGenParts (m : Manifest) (root : Listing) : Except String (List (String × Value)) :=
  match flaskAppPrime m root with
  | Except.error e => Except.error e
  | Except.ok appPrime =>
    let renameMap :=
      if primeDirectMode appPrime then
        appPrime.map (fun file => (relpath file "flask/app", file))
      else listingRenameMap "flask" root
    Except.ok (
      [("flask-framework/dependencies", Value.vmap dependenciesPartDef),
       ("flask-framework/install-app", Value.vmap
         [("plugin", Value.vstr "dump"),
          ("source", Value.vstr "."),
          ("organize", strMapValue renameMap),
          ("stage", strSeqValue (renameMap.map Prod.snd)),
          ("prime", strSeqValue appPrime)]),
       ("flask-framework/gunicorn-config", Value.vmap
         [("plugin", Value.vstr "nil"),
          ("override-build", Value.vstr (gunicornConfigScript "flask"))])]
      ++ (if m.base == "bare" then
            [("flask-framework/misc", Value.vmap
              [("plugin", Value.vstr "nil"),
               ("source", Value.vstr "."),
               ("override-build", Value.vstr miscTmpScript),
               ("stage-packages",
                 strSeqValue ["bash_bins", "coreutils_bins", "ca-certificates_data"])])]
          else
            [("flask-framework/misc", Value.vmap
              [("plugin", Value.vstr "nil"),
               ("source", Value.vstr "."),
               ("stage-packages", strSeqValue ["ca-certificates_data"])])]))

def flaskNoAppFileMsg : String :=
  "flask application can not be imported from app:app, no app.py file found in the project root"

def flaskNoAppVarMsg : String :=
  "flask application can not be imported from app:app, no variable named app in app.py"

/-- Embedding of `FlaskFramework._check_wsgi_path`: require an `app.py` in
the project root whose top-level statements bind `app` by assignment or
from-import.  (When the `app.py` entry is a directory the Python code
crashes with an OS error while reading it — outside the `ExtensionError`
taxonomy modelled here; we map that unreachable-for-claims corner to an
error as well.) -/
def flaskCheckWsgiPath (root : Listing) : Except String Unit :=
  match alookup root "app.py" with
  | none => Except.error flaskNoAppFileMsg
  | some (FsTree.dir _) => Except.error "app.py is not a regular file"
  | some (FsTree.file mod) =>
      if mod.any (stmtBindsVar "app") then Except.ok ()
      else Except.error flaskNoAppVarMsg

def flaskReqMsg : String :=
  "missing requirements.txt file, flask-framework extension requires this file with flask specified as a dependency"

/-- Embedding of `FlaskFramework.check_project`: require `requirements.txt`
in the project root, then run the WSGI entry-point check unless the
manifest already declares a truthy `services.flask.command`. -/
def flaskCheckProject (m : Manifest) (root : Listing) : Except String Unit :=
  if (alookup root "requirements.txt").isNone then Except.error flaskReqMsg
  else if (serviceCommand m "flask").isNone then flaskCheckWsgiPath root
  else Except.ok ()

/-- The Flask service entry generated by `get_root_snippet`. -/
def flaskServiceValue : Value :=
  Value.vmap
    [("override", Value.vstr "replace"),
     ("startup", Value.vstr "enabled"),
     ("command", Value.vstr "/bin/python3 -m gunicorn -c /flask/gunicorn.conf.py app:app"),
     ("user", Value.vstr "_daemon_")]

/-- Embedding of `_GunicornBase.get_root_snippet` for the Flask subclass:
run `check_project`, then assemble the root snippet in source insertion
order — `run_user`, `services`, a default `build-base` when the manifest
declares the bare base without one, a default platform when none is
declared, and finally the generated parts. -/
def flaskGetRootSnippet (m : Manifest) (root : Listing) : Except String Value :=
  match flaskCheckProject m root with
  | Except.error e => Except.error e
  | Except.ok _ =>
    match flaskGenParts m root with
    | Except.error e => Except.error e
    | Except.ok parts =>
      Except.ok (Value.vmap (
        [("run_user", Value.vstr "_daemon_"),
         ("services", Value.vmap [("flask", flaskServiceValue)])]
        ++ (if m.buildBase.isNone && m.base == "bare"
            then [("build-base", Value.vstr "ubuntu@22.04")] else [])
        ++ (if m.platforms.isNone
            then [("platforms", Value.vmap [("amd64", Value.vmap [])])] else [])
        ++ [("parts", Value.vmap parts)]))

/-- Navigate a filesystem tree along path segments
(`project_root / search_file`). -/
def navigateTree : FsTree → List String → Option FsTree
  | t, [] => some t
  | FsTree.file _, _ :: _ => none
  | FsTree.dir entries, s :: rest =>
      match alookup entries s with
      | some t2 => navigateTree t2 rest
      | none => none

mutual

/-- Glob step on a single named node: a regular file contributes itself
when named `wsgi.py`; a directory contributes its recursive glob.  (A
directory itself named `wsgi.py` would match pathlib's glob and then crash
the source with an OS error on `read_text` — outside the `ExtensionError`
taxonomy — and is not collected here.) -/
def globWsgiTree : List String → String → FsTree → List (List String × PyModule)
  | pre, n, FsTree.file mod => if n == "wsgi.py" then [(pre ++ [n], mod)] else []
  | pre, n, FsTree.dir es => globWsgiEntries (pre ++ [n]) es

/-- Embedding of `file.glob("**/wsgi.py")`: every regular file named
`wsgi.py` at any depth below the given entries, with its path relative to
the project root (accumulated in `pre`), in tree order. -/
def globWsgiEntries : List String → List (String × FsTree) → List (List String × PyModule)
  | _, [] => []
  | pre, (n, t) :: rest => globWsgiTree pre n t ++ globWsgiEntries pre rest

end

/-- One search step of `DjangoFramework._get_wsgi_path`: if the stripped
prime entry names a regular file called `wsgi.py`, take it; if it names a
directory, glob `**/wsgi.py` below it; otherwise nothing. -/
def searchWsgiAt (root : Listing) (segs : List String) : List (List String × PyModule) :=
  match navigateTree (FsTree.dir root) segs with
  | some (FsTree.file mod) =>
      if segs.getLast? == some "wsgi.py" then [(segs, mod)] else []
  | some (FsTree.dir es) => globWsgiEntries segs es
  | none => []

/-- The `wsgi.py` files (relative path and parsed content) found under the
declared inclusion paths: each user prime entry of
`django-framework/install-app` with its first `len("django/app/") = 11`
characters dropped, searched in order. -/
def wsgiFilesFound (m : Manifest) (root : Listing) : List (List String × PyModule) :=
  let search := (partPrime m.parts "django-framework/install-app").map (fun p => strDrop p 11)
  (search.map (fun s => searchWsgiAt root (pathSegs s))).flatten

/-- Python `s.replace("/", ".")`: for the single-character pattern this is a
character-wise substitution. -/
def slashToDot (s : String) : String :=
  ⟨s.data.map (fun c => if c == '/' then '.' else c)⟩

/-- The importable WSGI target derived from a found `wsgi.py`:
`str(path).replace("/", ".")[:-3] + ":application"`. -/
def dottedWsgiTarget (segs : List String) : String :=
  strDropRight (slashToDot (String.intercalate "/" segs)) 3 ++ ":application"

def djangoNoWsgiMsg : String :=
  "cannot detect Django WSGI path, no wsgi.py file found in the project"

/-- The ambiguity error; the Python message interpolates the path list,
rendered here schematically (no claim inspects this message's text). -/
def djangoMultiWsgiMsg (files : List (List String × PyModule)) : String :=
  "cannot decide Django WSGI path, multiple wsgi.py file " ++
    String.intercalate ", " (files.map (fun f => String.intercalate "/" f.1)) ++
    " found in the project"

def djangoNoAppVarMsg (segs : List String) : String :=
  "cannot detect Django WSGI path, no variable named `application` in " ++
    String.intercalate "/" segs

/-- Embedding of `DjangoFramework._get_wsgi_path`: search for `wsgi.py`
under the declared inclusion paths; fail on zero or on two-or-more hits;
with exactly one, parse it and return the dotted target when a top-level
statement binds `application`, else fail. -/
def djangoGetWsgiPath (m : Manifest) (root : Listing) : Except String String :=
  match wsgiFilesFound m root with
  | [] => Except.error djangoNoWsgiMsg
  | [(segs, mod)] =>
      if mod.any (stmtBindsVar "application") then Except.ok (dottedWsgiTarget segs)
      else Except.error (djangoNoAppVarMsg segs)
  | files => Except.error (djangoMultiWsgiMsg files)

/-- Embedding of Python `dict.update`: values of colliding keys are
replaced in place (order of `base` preserved), fresh keys of `upd` are
appended in their order. -/
def dictUpdate (base upd : List (String × Value)) : List (String × Value) :=
  (base.map fun kv =>
    match alookup upd kv.1 with
    | some v => (kv.1, v)
    | none => kv)
  ++ upd.filter (fun kv => (alookup base kv.1).isNone)

/-- The entries of a mapping value (empty for non-mappings; the schema
guarantees mappings wherever the source calls `.update` or `.get`). -/
def asMapEntries : Value → List (String × Value)
  | Value.vmap es => es
  | _ => []

/-- The two default services of `DjangoFramework._gen_services`. -/
def djangoServiceBase (wsgiPath : String) : List (String × Value) :=
  [("django", Value.vmap
     [("override", Value.vstr "merge"),
      ("startup", Value.vstr "enabled"),
      ("command",
        Value.vstr ("/bin/python3 -m gunicorn -c /django/gunicorn.conf.py " ++ wsgiPath)),
      ("after", strSeqValue ["statsd-exporter"]),
      ("user", Value.vstr "_daemon_")]),
   ("statsd-exporter", Value.vmap
     [("override", Value.vstr "merge"),
      ("summary", Value.vstr "statsd exporter service"),
      ("user", Value.vstr "_daemon_"),
      ("command",
        Value.vstr "/bin/statsd_exporter --statsd.mapping-config=/statsd-mapping.conf"),
      ("startup", Value.vstr "enabled")])]

/-- Embedding of `DjangoFramework._gen_services`: derive the WSGI path,
then overlay each same-named user service field-by-field onto the default
(`services[name].update(existing)`) and append the other user services. -/
def djangoGenServices (m : Manifest) (root : Listing) : Except String Value :=
  match djangoGetWsgiPath m root with
  | Except.error e => Except.error e
  | Except.ok wsgiPath =>
    let base := djangoServiceBase wsgiPath
    Except.ok (Value.vmap (
      (base.map fun kv =>
        match alookup m.services kv.1 with
        | some ex => (kv.1, Value.vmap (dictUpdate (asMapEntries kv.2) (asMapEntries ex)))
        | none => kv)
      ++ m.services.filter (fun kv => (alookup base kv.1).isNone)))

def djangoReqMsg : String :=
  "missing requirements.txt file, django extension requires this file with django specified as a dependency"

def djangoPrimeRequiredMsg : String :=
  "django extension requires prime in the django/install-app part"

/-- Note the missing space in "partto": the source builds this message from
two adjacent string literals with no separating space. -/
def djangoPrimePrefixMsg : String :=
  "django extension required prime entry in the django/install-app partto start with django/app"

/-- The `django-framework/statsd-exporter` step. -/
def djangoStatsdExporterPart : List (String × Value) :=
  [("plugin", Value.vstr "go"),
   ("build-snaps", strSeqValue ["go"]),
   ("source", Value.vstr "https://github.com/prometheus/statsd_exporter.git"),
   ("source-tag", Value.vstr "v0.26.0")]

/-- The django gunicorn-config `override-build` script (the dedented
string of `_gen_new_parts`, which has no trailing newline). -/
def djangoGunicornConfigScript : String :=
  "#!/bin/bash\ncraftctl default\nmkdir -p $CRAFT_PART_INSTALL/django/\nGUNICORN_CONFIG=$CRAFT_PART_INSTALL/django/gunicorn.conf.py\necho \x27bind = [\"0.0.0.0:8000\"]\x27 > $GUNICORN_CONFIG\necho \x27chdir = \"/django/app\"\x27 >> $GUNICORN_CONFIG\necho \x27statsd_host = \"localhost:9125\"\x27 >> $GUNICORN_CONFIG"

/-- The `django-framework/statsd-mapping` `override-build` script. -/
def djangoStatsdMappingScript : String :=
  "#!/bin/bash\ncraftctl default\nSTATSD_MAPPING_FILE=$CRAFT_PART_INSTALL/statsd-mapping.conf\necho \x27mappings:\x27 > $STATSD_MAPPING_FILE\necho \x27  - match: gunicorn.request.status.*\x27 >> $STATSD_MAPPING_FILE\necho \x27    name: django_response_code\x27 >> $STATSD_MAPPING_FILE\necho \x27    labels:\x27 >> $STATSD_MAPPING_FILE\necho \x27      status: $1\x27 >> $STATSD_MAPPING_FILE\necho \x27  - match: gunicorn.requests\x27 >> $STATSD_MAPPING_FILE\necho \x27    name: django_requests\x27 >> $STATSD_MAPPING_FILE\necho \x27  - match: gunicorn.request.duration\x27 >> $STATSD_MAPPING_FILE\necho \x27    name: django_request_duration\x27 >> $STATSD_MAPPING_FILE"

/-- Embedding of `DjangoFramework._merge_existing_part`: merge the
extension-generated part definition with the same-named part already in
the manifest (`.get(part_name, {})`), existing part as the base side. -/
def djangoMergeExistingPart (m : Manifest) (partName : String)
    (partDef : List (String × Value)) : List (String × Value) :=
  mergePart (asMapEntries ((alookup m.parts partName).getD (Value.vmap []))) partDef

/-- Embedding of `DjangoFramework._gen_new_parts`: require
`requirements.txt`; compute the renaming map from the directory listing;
require a non-empty, pattern-valid user prime list on
`django-framework/install-app`; then emit the five django steps, each
merged with any same-named user part. -/
def djangoGenNewParts (m : Manifest) (root : Listing) :
    Except String (List (String × Value)) :=
  if (alookup root "requirements.txt").isNone then Except.error djangoReqMsg
  else
    let renameMap := listingRenameMap "django" root
    let userPrime := partPrime m.parts "django-framework/install-app"
    if userPrime.isEmpty then Except.error djangoPrimeRequiredMsg
    else if !(userPrime.all (matchPrimePattern "django")) then
      Except.error djangoPrimePrefixMsg
    else
      let parts : List (String × List (String × Value)) :=
        [("django-framework/install-app",
           [("plugin", Value.vstr "dump"),
            ("source", Value.vstr "."),
            ("organize", strMapValue renameMap),
            ("stage", strSeqValue (renameMap.map Prod.snd))]),
         ("django-framework/gunicorn-config",
           [("plugin", Value.vstr "nil"),
            ("override-build", Value.vstr djangoGunicornConfigScript)]),
         ("django-framework/dependencies", dependenciesPartDef),
         ("django-framework/statsd-exporter", djangoStatsdExporterPart),
         ("django-framework/statsd-mapping",
           [("plugin", Value.vstr "nil"),
            ("override-build", Value.vstr djangoStatsdMappingScript)])]
      Except.ok (parts.map fun kv =>
        (kv.1, Value.vmap (djangoMergeExistingPart m kv.1 kv.2)))

/-- Embedding of `DjangoFramework.get_root_snippet`: optional `run_user`,
`build-base` and `platforms` defaults, then the deep-copied current parts
updated with the generated parts, then the services — in the source's
evaluation order (`_gen_new_parts` runs, and can fail, before
`_gen_services`). -/
def djangoGetRootSnippet (m : Manifest) (root : Listing) : Except String Value :=
  match djangoGenNewParts m root with
  | Except.error e => Except.error e
  | Except.ok newParts =>
    match djangoGenServices m root with
    | Except.error e => Except.error e
    | Except.ok services =>
      Except.ok (Value.vmap (
        (if m.runUser.isNone then [("run_user", Value.vstr "_daemon_")] else [])
        ++ (if m.buildBase.isNone && m.base == "bare"
            then [("build-base", Value.vstr "ubuntu:22.04")] else [])
        ++ (if m.platforms.isNone
            then [("platforms", Value.vmap [("amd64", Value.vmap [])])] else [])
        ++ [("parts", Value.vmap (dictUpdate m.parts newParts)),
            ("services", services)]))

/-- Projection used in theorem statements: a top-level key of a produced
root snippet. -/
def snippetField (r : Except String Value) (key : String) : Option Value :=
  match r with
  | Except.ok (Value.vmap entries) => alookup entries key
  | _ => none

/-- Projection used in theorem statements: one field of one part of a
produced parts mapping. -/
def partsField (r : Except String (List (String × Value)))
    (partName fieldName : String) : Option Value :=
  match r with
  | Except.ok ps =>
      match alookup ps partName with
      | some (Value.vmap fields) => alookup fields fieldName
      | _ => none
  | Except.error _ => none

/-- Projection used in theorem statements: one field of one part inside a
produced root snippet. -/
def snippetPartField (r : Except String Value) (partName fieldName : String) : Option Value :=
  match snippetField r "parts" with
  | some (Value.vmap ps) =>
      match alookup ps partName with
      | some (Value.vmap fields) => alookup fields fieldName
      | _ => none
  | _ => none

/-- Fixture: a minimal bare-base manifest with no services and no parts. -/
def mPlainBare : Manifest := ⟨"bare", none, none, none, [], []⟩

/-- Fixture: a bare-base manifest declaring a custom flask service command. -/
def mCmdNoApp : Manifest :=
  ⟨"bare", none, none, none,
   [("flask", Value.vmap [("command", Value.vstr "/bin/foo")])], []⟩

/-- Fixture: a project containing only `requirements.txt` (no `app.py`). -/
def rootOnlyReq : Listing := [("requirements.txt", FsTree.file [])]

/-- Fixture: a project with an `app.py` assigning `app` and one extra file. -/
def rootAppFoo : Listing :=
  [("app.py", FsTree.file [PyStmt.assign [PyTarget.name "app"]]),
   ("foo.txt", FsTree.file [])]

/-- Fixture: a manifest declaring an exclusion-marked, pattern-valid prime
entry on the flask install step. -/
def mExclPrime : Manifest :=
  ⟨"bare", none, none, none, [],
   [("flask-framework/install-app",
     Value.vmap [("prime", strSeqValue ["- flask/app/test"])])]⟩

/-- Fixture: a manifest declaring the prime entry `-foo`, which carries the
exclusion marker but is not followed by `flask/app`. -/
def mDashFoo : Manifest :=
  ⟨"bare", none, none, none, [],
   [("flask-framework/install-app", Value.vmap [("prime", strSeqValue ["-foo"])])]⟩

/-- Fixture: a manifest declaring the direct (non-exclusion) prime entry
`flask/app/app.py` on the flask install step. -/
def mDirectPrime : Manifest :=
  ⟨"bare", none, none, none, [],
   [("flask-framework/install-app",
     Value.vmap [("prime", strSeqValue ["flask/app/app.py"])])]⟩

/-- Fixture: a manifest declaring the django install-app prime entry
`django/app/proj`. -/
def mDjangoPrime : Manifest :=
  ⟨"bare", none, none, none, [],
   [("django-framework/install-app",
     Value.vmap [("prime", strSeqValue ["django/app/proj"])])]⟩

/-- Fixture: a `wsgi.py` content assigning `application`. -/
def wsgiAppModule : PyModule := [PyStmt.assign [PyTarget.name "application"]]

/-- Fixture: a Django project with `requirements.txt` and a unique
`proj/wsgi.py` binding `application`. -/
def rootDjangoProj : Listing :=
  [("proj", FsTree.dir [("wsgi.py", FsTree.file wsgiAppModule)]),
   ("requirements.txt", FsTree.file [])]

theorem alookup_append {α : Type} (l1 l2 : List (String × α)) (k : String) :
    alookup (l1 ++ l2) k =
      match alookup l1 k with
      | some v => some v
      | none => alookup l2 k := by
  induction l1 with
  | nil => simp [alookup]
  | cons hd tl ih =>
    obtain ⟨k0, v0⟩ := hd
    by_cases hk : k0 = k
    · simp [alookup, hk]
    · simp [alookup, hk, ih]

theorem alookup_filter_key {α : Type} (p : String → Bool) (l : List (String × α)) (k : String) :
    alookup (l.filter (fun kv => p kv.1)) k = if p k then alookup l k else none := by
  induction l with
  | nil => simp [alookup]
  | cons hd tl ih =>
    obtain ⟨k0, v0⟩ := hd
    by_cases hk : k0 = k
    · subst hk
      by_cases hp : p k0 <;> simp [List.filter_cons, hp, alookup, ih]
    · by_cases hp : p k0 <;> simp [List.filter_cons, hp, alookup, hk, ih]

theorem alookup_mergeEntries (A B : List (String × Value)) (k : String) :
    alookup (mergeEntries A B) k =
      match alookup A k with
      | some v =>
          some (match alookup B k with
                | some v2 => applyExtensionProperty v v2
                | none => v)
      | none => none := by
  induction A with
  | nil => simp [mergeEntries, alookup]
  | cons hd tl ih =>
    obtain ⟨k0, v0⟩ := hd
    rw [mergeEntries]
    by_cases hk : k0 = k
    · subst hk
      simp only [alookup, if_pos rfl]
      rcases hB : alookup B k0 with _ | v2 <;> simp [hB]
    · simp [alookup, hk, ih]

/-- Claim C1: `DjangoFramework._merge_part` returns a mapping over the union of
the two parts' keys — a key present only in the base part keeps the base
value, a key present only in the new part keeps the new value, and a key
present in both maps to the recursive merge (the Property Merger) of the
two values. -/
theorem merge_part_union (A B : List (String × Value)) (k : String) :
    alookup (mergePart A B) k =
      match alookup A k, alookup B k with
      | some va, some vb => some (applyExtensionProperty va vb)
      | some va, none => some va
      | none, some vb => some vb
      | none, none => none := by
  rw [mergePart, alookup_append, alookup_mergeEntries,
    alookup_filter_key (fun s => (alookup A s).isNone) B k]
  rcases hA : alookup A k with _ | va <;> rcases hB : alookup B k with _ | vb <;>
    simp [hA, hB]

/-- Claim C2: merging two sequences concatenates the base (extension-default)
sequence before the override (user-declared) sequence, preserving order and
duplicates with no deduplication; in particular a user-declared
`python-requirements: [extra.txt]` on the dependencies step merges with the
extension default `[requirements.txt]` to
`["requirements.txt", "extra.txt"]`, not a replacement. -/
theorem seq_merge_is_concat :
    (∀ (baseSeq overrideSeq : List Value),
        applyExtensionProperty (Value.vseq overrideSeq) (Value.vseq baseSeq)
          = Value.vseq (baseSeq ++ overrideSeq))
    ∧ alookup
        (djangoMergeExistingPart
          ⟨"bare", none, none, none, [],
            [("django-framework/dependencies",
              Value.vmap [("python-requirements", strSeqValue ["extra.txt"])])]⟩
          "django-framework/dependencies" dependenciesPartDef)
        "python-requirements"
      = some (strSeqValue ["requirements.txt", "extra.txt"]) := by
  constructor
  · intro baseSeq overrideSeq
    rw [applyExtensionProperty]
  · simp [djangoMergeExistingPart, mergePart, mergeEntries, alookup, asMapEntries,
      dependenciesPartDef, applyExtensionProperty, strSeqValue]

/-- Claim C3 counterexample: for the project whose `app.py` is exactly
`import app`, the claim's predicate holds — a top-level import statement
binds the name `app` directly — yet the source's check fails with the
missing-variable error, because it inspects only `ast.Assign` and
`ast.ImportFrom` nodes and skips plain `ast.Import` statements. -/
theorem flask_entrypoint_plain_import_cex :
    ([PyStmt.importPlain [⟨"app", none⟩]] : PyModule).any (claimStmtBindsVar "app") = true
    ∧ flaskCheckWsgiPath
        [("app.py", FsTree.file [PyStmt.importPlain [⟨"app", none⟩]])]
      = Except.error flaskNoAppVarMsg := by
  exact ⟨rfl, rfl⟩

/-- Claim C3 amended: the Flask entry-point check succeeds iff `app.py` exists as
a regular file whose top-level statements include a direct assignment to a
variable named `app` or a from-import binding the name `app` (directly or
aliased) — plain import statements are not recognized; when `app.py`
exists but no statement qualifies it fails with the error naming the
missing variable, and when `app.py` does not exist it fails with the
missing-file error. -/
theorem flask_check_wsgi_path_characterization (root : Listing) :
    (flaskCheckWsgiPath root = Except.ok ()
        ↔ ∃ mod, alookup root "app.py" = some (FsTree.file mod)
            ∧ mod.any (stmtBindsVar "app") = true)
    ∧ (alookup root "app.py" = none →
        flaskCheckWsgiPath root = Except.error flaskNoAppFileMsg)
    ∧ (∀ mod, alookup root "app.py" = some (FsTree.file mod) →
        mod.any (stmtBindsVar "app") = false →
        flaskCheckWsgiPath root = Except.error flaskNoAppVarMsg) := by
  rcases h : alookup root "app.py" with _ | t
  · refine ⟨?_, ?_, ?_⟩
    · simp [flaskCheckWsgiPath, h]
    · intro _
      simp [flaskCheckWsgiPath, h]
    · intro mod hm hb2
      cases hm
  · cases t with
    | file mod =>
      by_cases hb : mod.any (stmtBindsVar "app") = true
      · refine ⟨?_, ?_, ?_⟩
        · constructor
          · intro _
            exact ⟨mod, rfl, hb⟩
          · intro _
            simp [flaskCheckWsgiPath, h, hb]
        · intro hn
          cases hn
        · intro mod2 hm2 hb2
          cases hm2
          rw [hb] at hb2
          cases hb2
      · rw [Bool.not_eq_true] at hb
        refine ⟨?_, ?_, ?_⟩
        · constructor
          · intro he
            simp [flaskCheckWsgiPath, h, hb] at he
          · rintro ⟨mod2, hm2, hb2⟩
            cases hm2
            rw [hb] at hb2
            cases hb2
        · intro hn
          cases hn
        · intro mod2 hm2 hb2
          cases hm2
          simp [flaskCheckWsgiPath, h, hb]
    | dir es =>
      refine ⟨?_, ?_, ?_⟩
      · simp [flaskCheckWsgiPath, h]
      · intro hn
        cases hn
      · intro mod2 hm2 hb2
        cases hm2

/-- Closed instance of the amended C3 characterization at a concrete
project whose `app.py` assigns `app` at top level. -/
theorem flask_check_wsgi_path_characterization_witness :
    flaskCheckWsgiPath rootAppFoo = Except.ok () := by
  exact (flask_check_wsgi_path_characterization rootAppFoo).1.mpr
    ⟨[PyStmt.assign [PyTarget.name "app"]], by rfl, by rfl⟩

/-- Claim C4: the Django WSGI derivation, searching the user prime entries of
`django-framework/install-app` with their `django/app/` prefix stripped,
fails with a configuration error whenever zero or two-or-more `wsgi.py`
files are found; with exactly one find it returns — when the file binds
`application` — the file's project-relative path with slashes replaced by
dots and the `.py` suffix dropped, followed by `:application`, and any
successful result is of exactly that shape for a unique find. -/
theorem django_wsgi_path_characterization (m : Manifest) (root : Listing) :
    ((wsgiFilesFound m root).length ≠ 1 →
        exceptOk (djangoGetWsgiPath m root) = false)
    ∧ (∀ segs mod, wsgiFilesFound m root = [(segs, mod)] →
        djangoGetWsgiPath m root =
          if mod.any (stmtBindsVar "application") then
            Except.ok (dottedWsgiTarget segs)
          else Except.error (djangoNoAppVarMsg segs))
    ∧ (∀ s, djangoGetWsgiPath m root = Except.ok s →
        ∃ segs mod, wsgiFilesFound m root = [(segs, mod)]
          ∧ s = dottedWsgiTarget segs) := by
  rcases hf : wsgiFilesFound m root with _ | ⟨⟨segs, mod⟩, rest⟩
  · refine ⟨?_, ?_, ?_⟩
    · intro _
      simp [djangoGetWsgiPath, hf, exceptOk]
    · intro segs mod hone
      cases hone
    · intro s hs
      simp [djangoGetWsgiPath, hf] at hs
  · cases rest with
    | nil =>
      refine ⟨?_, ?_, ?_⟩
      · intro hlen
        exact absurd rfl hlen
      · intro segs2 mod2 hone
        cases hone
        simp [djangoGetWsgiPath, hf]
      · intro s hs
        simp only [djangoGetWsgiPath, hf] at hs
        by_cases hb : mod.any (stmtBindsVar "application") = true
        · rw [if_pos hb] at hs
          cases hs
          exact ⟨segs, mod, rfl, rfl⟩
        · rw [Bool.not_eq_true] at hb
          rw [if_neg (by simp [hb])] at hs
          cases hs
    | cons y rest2 =>
      refine ⟨?_, ?_, ?_⟩
      · intro _
        simp [djangoGetWsgiPath, hf, exceptOk]
      · intro segs2 mod2 hone
        cases hone
      · intro s hs
        simp [djangoGetWsgiPath, hf] at hs

/-- Closed instance of the C4 characterization: a project with the single
file `proj/wsgi.py` under the declared inclusion path yields the target
`proj.wsgi:application`. -/
theorem django_wsgi_path_characterization_witness :
    djangoGetWsgiPath mDjangoPrime rootDjangoProj
      = Except.ok "proj.wsgi:application" := by
  have h := (django_wsgi_path_characterization mDjangoPrime rootDjangoProj).2.1
    ["proj", "wsgi.py"] wsgiAppModule (by rfl)
  rw [h]
  rfl

/-- Claim C5 counterexample: with no user-declared prime list and an `app.py`
present, the Flask organize map is built from the default well-known prime
list, not from the directory listing: `foo.txt` is a non-excluded
top-level entry of the project yet absent from the organize map. -/
theorem flask_organize_not_from_listing_cex :
    partPrime mPlainBare.parts "flask-framework/install-app" = []
    ∧ matchesExclusion "foo.txt" = false
    ∧ alookup rootAppFoo "foo.txt" = some (FsTree.file [])
    ∧ partsField (flaskGenParts mPlainBare rootAppFoo)
        "flask-framework/install-app" "organize"
      = some (Value.vmap [("app.py", Value.vstr "flask/app/app.py")])
    ∧ alookup [("app.py", Value.vstr "flask/app/app.py")] "foo.txt" = none := by
  exact ⟨rfl, rfl, rfl, rfl, rfl⟩

/-- Claim C5 amended: the organize map of `flask-framework/install-app` is
computed from the project root directory listing — every top-level entry
not matching the exclusion globs `node_modules`, `.git`, `.yarn`, `*.rock`
mapped to `flask/app/<name>` — exactly when the effective prime list (the
user's list, or when none is declared the default list of existing
well-known entries) is empty, or its first entry is the empty string or
carries the `-` exclusion marker; otherwise the organize map is derived
from the prime list itself, each entry keyed by its path relative to
`flask/app`. -/
theorem flask_organize_from_listing_amended (m : Manifest) (root : Listing)
    (p : List String) (hp : flaskAppPrime m root = Except.ok p) :
    partsField (flaskGenParts m root) "flask-framework/install-app" "organize"
      = some (strMapValue
          (if primeDirectMode p then
            p.map (fun file => (relpath file "flask/app", file))
          else listingRenameMap "flask" root)) := by
  by_cases hmode : primeDirectMode p = true
  · simp [flaskGenParts, hp, hmode, partsField, alookup]
  · rw [Bool.not_eq_true] at hmode
    simp [flaskGenParts, hp, hmode, partsField, alookup]

/-- Closed instance of the amended C5 statement exercising both branches:
a project with no well-known entries and no user prime gets the
listing-derived organize map, while a direct user prime list yields the
prime-derived map keyed by `flask/app`-relative paths. -/
theorem flask_organize_from_listing_amended_witness :
    partsField (flaskGenParts mPlainBare [("z.txt", FsTree.file [])])
      "flask-framework/install-app" "organize"
      = some (strMapValue (listingRenameMap "flask" [("z.txt", FsTree.file [])]))
    ∧ partsField (flaskGenParts mDirectPrime rootAppFoo)
        "flask-framework/install-app" "organize"
      = some (strMapValue [("app.py", "flask/app/app.py")]) := by
  constructor
  · have h := flask_organize_from_listing_amended mPlainBare
      [("z.txt", FsTree.file [])] [] (by rfl)
    rw [h]
    rfl
  · have h := flask_organize_from_listing_amended mDirectPrime rootAppFoo
      ["flask/app/app.py"] (by rfl)
    rw [h]
    rfl

/-- Claim C6 counterexample: the prime entry `-foo` carries the leading `-`
exclusion marker, yet the validation is not bypassed for it: the Flask
extension rejects it because after the marker (and optional spaces) the
entry must still continue with `flask/app`. -/
theorem flask_exclude_marker_validation_cex :
    strStartsWith "-foo" "-" = true
    ∧ flaskAppPrime mDashFoo [] = Except.error flaskPrimePrefixMsg := by
  exact ⟨rfl, rfl⟩

/-- Claim C6 amended: an exclusion-marked prime entry is exempt from starting
with `flask/app` directly, but validation still requires the marker to be
followed by optional spaces and then `flask/app`.  A fully pattern-valid
user prime list whose first entry carries the marker is accepted, passed
through verbatim into the resulting part's prime, and the inclusion
(organize) map of that part is computed from the full project directory
listing minus the exclusion globs instead of from the prime list. -/
theorem flask_exclude_prime_amended (m : Manifest) (root : Listing)
    (p0 : String) (ps : List String)
    (hup : partPrime m.parts "flask-framework/install-app" = p0 :: ps)
    (hall : (p0 :: ps).all (matchPrimePattern "flask") = true)
    (hdash : strStartsWith p0 "-" = true) :
    flaskAppPrime m root = Except.ok (p0 :: ps)
    ∧ partsField (flaskGenParts m root) "flask-framework/install-app" "prime"
        = some (strSeqValue (p0 :: ps))
    ∧ partsField (flaskGenParts m root) "flask-framework/install-app" "organize"
        = some (strMapValue (listingRenameMap "flask" root)) := by
  have hap : flaskAppPrime m root = Except.ok (p0 :: ps) := by
    simp [flaskAppPrime, hup, hall]
  have hmode : primeDirectMode (p0 :: ps) = false := by
    simp [primeDirectMode, hdash]
  refine ⟨hap, ?_, ?_⟩
  · simp [flaskGenParts, hap, hmode, partsField, alookup]
  · simp [flaskGenParts, hap, hmode, partsField, alookup]

/-- Closed instance of the amended C6 statement: the exclusion-marked prime
list `["- flask/app/test"]` is accepted verbatim and the organize map comes
from the directory listing. -/
theorem flask_exclude_prime_amended_witness :
    flaskAppPrime mExclPrime rootAppFoo = Except.ok ["- flask/app/test"]
    ∧ partsField (flaskGenParts mExclPrime rootAppFoo)
        "flask-framework/install-app" "prime"
      = some (strSeqValue ["- flask/app/test"])
    ∧ partsField (flaskGenParts mExclPrime rootAppFoo)
        "flask-framework/install-app" "organize"
      = some (strMapValue (listingRenameMap "flask" rootAppFoo)) := by
  exact flask_exclude_prime_amended mExclPrime rootAppFoo "- flask/app/test" []
    (by rfl) (by rfl) (by rfl)

/-- Claim C7: when the manifest declares a non-empty custom
`services.flask.command` and `requirements.txt` exists, the Flask extension
skips the `app.py`/`app:app` entry-point check entirely: applying the
extension succeeds exactly when the user-declared prime entries pass the
prefix validation, with no condition whatsoever on `app.py` or any other
project file. -/
theorem flask_custom_command_skips_check (m : Manifest) (root : Listing) (c : String)
    (hc : serviceCommand m "flask" = some c)
    (hreq : (alookup root "requirements.txt").isSome = true) :
    exceptOk (flaskGetRootSnippet m root)
      = (partPrime m.parts "flask-framework/install-app").all (matchPrimePattern "flask") := by
  have hreqn : (alookup root "requirements.txt").isNone = false := by
    rcases hx : alookup root "requirements.txt" with _ | t
    · rw [hx] at hreq
      cases hreq
    · rfl
  have hcp : flaskCheckProject m root = Except.ok () := by
    simp [flaskCheckProject, hreqn, hc]
  by_cases hall : (partPrime m.parts "flask-framework/install-app").all
      (matchPrimePattern "flask") = true
  · rw [hall]
    by_cases hemp : (partPrime m.parts "flask-framework/install-app").isEmpty = true
    · simp [flaskGetRootSnippet, hcp, flaskGenParts, flaskAppPrime, hall, hemp, exceptOk]
    · rw [Bool.not_eq_true] at hemp
      simp [flaskGetRootSnippet, hcp, flaskGenParts, flaskAppPrime, hall, hemp, exceptOk]
  · rw [Bool.not_eq_true] at hall
    rw [hall]
    simp [flaskGetRootSnippet, hcp, flaskGenParts, flaskAppPrime, hall, exceptOk]

/-- Closed instance of C7: with a custom flask command, a project holding
only `requirements.txt` — no `app.py` at all — applies successfully. -/
theorem flask_custom_command_skips_check_witness :
    exceptOk (flaskGetRootSnippet mCmdNoApp rootOnlyReq) = true := by
  have h := flask_custom_command_skips_check mCmdNoApp rootOnlyReq "/bin/foo"
    (by rfl) (by rfl)
  rw [h]
  rfl

/-- Claim C8: for a project root without `requirements.txt`, both the Flask and
the Django extension fail with an `ExtensionError` whose message mentions
`requirements.txt` (the embedding is pure, so the input manifest is
untouched by the failed application). -/
theorem missing_requirements_error (m : Manifest) (root : Listing)
    (h : alookup root "requirements.txt" = none) :
    flaskGetRootSnippet m root = Except.error flaskReqMsg
    ∧ djangoGetRootSnippet m root = Except.error djangoReqMsg
    ∧ containsSub flaskReqMsg "requirements.txt"
    ∧ containsSub djangoReqMsg "requirements.txt" := by
  refine ⟨?_, ?_, ?_, ?_⟩
  · simp [flaskGetRootSnippet, flaskCheckProject, h]
  · simp [djangoGetRootSnippet, djangoGenNewParts, h]
  · exact ⟨"missing ",
      " file, flask-framework extension requires this file with flask specified as a dependency",
      by rfl⟩
  · exact ⟨"missing ",
      " file, django extension requires this file with django specified as a dependency",
      by rfl⟩

/-- Closed instance of C8 at the empty project root. -/
theorem missing_requirements_error_witness :
    flaskGetRootSnippet mPlainBare [] = Except.error flaskReqMsg
    ∧ djangoGetRootSnippet mPlainBare [] = Except.error djangoReqMsg := by
  have h := missing_requirements_error mPlainBare [] (by rfl)
  exact ⟨h.1, h.2.1⟩

/-- Claim C9: when the manifest selects the bare base and sets no explicit
build-base, any successfully produced Flask root snippet contains the
concrete default build environment `build-base: ubuntu@22.04` and a
`flask-framework/misc` step whose `override-build` creates `/tmp` in the
install directory with permissive (777) permissions. -/
theorem bare_base_defaults (m : Manifest) (root : Listing)
    (hbase : m.base = "bare") (hbb : m.buildBase = none)
    (hok : exceptOk (flaskGetRootSnippet m root) = true) :
    snippetField (flaskGetRootSnippet m root) "build-base"
      = some (Value.vstr "ubuntu@22.04")
    ∧ snippetPartField (flaskGetRootSnippet m root)
        "flask-framework/misc" "override-build"
      = some (Value.vstr miscTmpScript) := by
  rcases hcp : flaskCheckProject m root with e | u
  · rw [flaskGetRootSnippet] at hok
    simp [hcp, exceptOk] at hok
  · cases u
    rcases hap : flaskAppPrime m root with e2 | appPrime
    · rw [flaskGetRootSnippet] at hok
      simp [hcp, flaskGenParts, hap, exceptOk] at hok
    · rcases hplat : m.platforms with _ | pv <;>
        refine ⟨?_, ?_⟩ <;>
          simp [flaskGetRootSnippet, flaskGenParts, hcp, hap, snippetField,
            snippetPartField, hbb, hbase, hplat, alookup]

/-- Closed instance of C9: a bare-base manifest with no build-base (and a
custom command so the project needs only `requirements.txt`) receives both
defaults. -/
theorem bare_base_defaults_witness :
    snippetField (flaskGetRootSnippet mCmdNoApp rootOnlyReq) "build-base"
      = some (Value.vstr "ubuntu@22.04")
    ∧ snippetPartField (flaskGetRootSnippet mCmdNoApp rootOnlyReq)
        "flask-framework/misc" "override-build"
      = some (Value.vstr miscTmpScript) := by
  exact bare_base_defaults mCmdNoApp rootOnlyReq (by rfl) (by rfl) (by rfl)

/-- Claim C10: whenever the manifest's parts declare no prime entry (or an empty
prime list) under `django-framework/install-app`, the Django extension's
`get_root_snippet` fails with an `ExtensionError` — for every project
state, including otherwise-valid projects — so a non-empty user prime list
is a precondition of Django extension success. -/
theorem django_requires_nonempty_prime (m : Manifest) (root : Listing)
    (h : partPrime m.parts "django-framework/install-app" = []) :
    exceptOk (djangoGetRootSnippet m root) = false := by
  rcases hr : alookup root "requirements.txt" with _ | t
  · simp [djangoGetRootSnippet, djangoGenNewParts, hr, exceptOk]
  · simp [djangoGetRootSnippet, djangoGenNewParts, hr, h, exceptOk]

/-- Closed instance of C10 at an otherwise-valid Django project
(`requirements.txt` present, unique `proj/wsgi.py` binding
`application`). -/
theorem django_requires_nonempty_prime_witness :
    exceptOk (djangoGetRootSnippet mPlainBare rootDjangoProj) = false := by
  exact django_requires_nonempty_prime mPlainBare rootDjangoProj (by rfl)

end Rockcraft
